import Mathlib

/-!
Verification of the `lit-ds-lab` design-system lab: the user-list
component's filter/limit projection and 4-state load machine
(`src/components/ds-user-list.js`), the fetch service
(`src/services/user-service.js`), the pub/sub store (`src/store.js`),
and the button's disabled guard (`src/components/ds-button.js`),
shallowly embedded in Lean.
-/

namespace DsLab

/-- A fetched user record: `id`, `name`, `email` (data model of the repo). -/
structure User where
  id : Int
  name : String
  email : String
deriving DecidableEq, Repr

/-! ### JavaScript string and array primitives used by `_filteredUsers` -/

/-- Boolean prefix test on character lists: `isPrefixB needle hay`. -/
def isPrefixB : List Char → List Char → Bool
  | [], _ => true
  | _ :: _, [] => false
  | a :: as, b :: bs => a == b && isPrefixB as bs

/-- Substring occurrence test on character lists: does `needle` occur
contiguously inside `hay`?  Mirrors `String.prototype.includes` (the
empty needle occurs in every string). -/
def hasSubstrL (hay needle : List Char) : Bool :=
  match hay with
  | [] => needle.isEmpty
  | _ :: t => isPrefixB needle hay || hasSubstrL t needle

/-- `hay.includes(needle)` of JavaScript, on Lean strings. -/
def jsIncludes (hay needle : String) : Bool :=
  hasSubstrL hay.data needle.data

/-- `s.toLowerCase()` of JavaScript, restricted to the ASCII mapping
(the names in the data set are ASCII). -/
def jsToLower (s : String) : String :=
  String.mk (s.data.map Char.toLower)

/-- `xs.slice(0, e)` of JavaScript `Array.prototype.slice`: the end
index is an integer; a negative end counts from the end of the array
(`max (len + e) 0`, the clamp at zero done here by `Int.toNat`), a
non-negative end is clamped to the length. -/
def jsSliceTo (xs : List α) (e : Int) : List α :=
  if e < 0 then xs.take ((xs.length : Int) + e).toNat
  else xs.take (min e (xs.length : Int)).toNat

/-! ### The `_filteredUsers` getter of `ds-user-list.js`

```js
get _filteredUsers() {
  if (!this._filter) return this._users.slice(0, this.limit);
  return this._users
    .filter((user) =>
      user.name.toLowerCase().includes(this._filter.toLowerCase()))
    .slice(0, this.limit);
}
```
`_filter` is initialised to `""` and only ever assigned strings, so the
falsiness test `!this._filter` is the test for the empty string. -/

/-- The derived view of the list component (`_filteredUsers`). -/
def filteredUsers (users : List User) (filter : String) (limit : Int) :
    List User :=
  if filter = "" then jsSliceTo users limit
  else
    jsSliceTo
      (users.filter fun user =>
        jsIncludes (jsToLower user.name) (jsToLower filter))
      limit

/-- The derived view as the spec words it: given `dataset`, `filter`,
`limit`, produce `dataset` filtered by case-insensitive substring match
on name when `filter` is non-empty, then truncated to the first `limit`
entries in original order (`limit` ranging over the spec's positive
integers, here any natural number). -/
def specDerivedView (dataset : List User) (filter : String) (limit : Nat) :
    List User :=
  (if filter = "" then dataset
   else
     dataset.filter fun user =>
       jsIncludes (jsToLower user.name) (jsToLower filter)).take limit

/-- Sample users from the spec's scenarios. -/
def alice : User := { id := 1, name := "Alice", email := "alice@example.com" }

/-- Second sample user from the spec's scenarios. -/
def bob : User := { id := 2, name := "Bob", email := "bob@example.com" }

example : filteredUsers [alice, bob] "" 10 = [alice, bob] := by decide
example : filteredUsers [alice, bob] "ali" 10 = [alice] := by decide
example : filteredUsers [alice, bob] "ALI" 10 = [alice] := by decide
example : filteredUsers [alice, bob] "" (-1) = [alice] := by decide

/-! ### The fetch service (`user-service.js`)

```js
export const getUsers = async () => {
  const response = await fetch(`${BASE_URL}/users`);
  if (!response.ok) throw new Error(response.statusText);
  return response.json();
};
```
`fetch` either resolves with a `Response` (carrying `ok` and
`statusText`) or rejects with a network error carrying a message; the
service turns a non-ok response into a thrown `Error(statusText)` and
lets a network rejection propagate unchanged. -/

/-- An HTTP response as `getUsers` inspects it: the `ok` flag, the
`statusText`, and the decoded JSON body. -/
structure HttpResponse where
  ok : Bool
  statusText : String
  body : List User

/-- Outcome of the underlying `fetch` call: a settled response, or a
network-level rejection carrying an error message. -/
inductive FetchOutcome where
  | response (r : HttpResponse)
  | networkError (msg : String)

/-- `getUsers` of `user-service.js`: throws `Error(statusText)` when the
response is not ok, returns the body otherwise; a network rejection
propagates with its own message. -/
def getUsers : FetchOutcome → Except String (List User)
  | .response r => if r.ok then .ok r.body else .error r.statusText
  | .networkError msg => .error msg

/-! ### The `ds-user-list` component state and event step

Reactive fields from the constructor: `_users = []`, `limit = 10`,
`_status = "idle"`, `_error = null`, `_filter = ""`.  The embedding adds
a `fetches` counter recording how many GETs the component has issued,
so the frame claims ("never issues a new fetch") are statable. -/

/-- The `_status` field: `idle | loading | success | error`. -/
inductive Status where
  | idle
  | loading
  | success
  | error
deriving DecidableEq, Repr

/-- The reactive state of one `ds-user-list` element. -/
structure CState where
  users : List User
  status : Status
  error : Option String
  filter : String
  limit : Int
  fetches : Nat
deriving Repr

/-- Constructor state of `ds-user-list` (no fetch issued yet). -/
def initUserList : CState :=
  { users := [], status := .idle, error := none, filter := "",
    limit := 10, fetches := 0 }

/-- What `render()` returns, one case per status branch; the retry
button exists only inside the error branch's template. -/
inductive View where
  | idleMsg
  | loadingMsg
  | errorView (msg : String)
  | listView (items : List User)
deriving DecidableEq, Repr

/-- String rendering of `_error` in `"Error loading users: " + this._error`
(JavaScript prints `null` as the string `"null"`). -/
def errStr : Option String → String
  | some m => m
  | none => "null"

/-- `render()` of `ds-user-list.js`: four explicit branches on `_status`;
the default branch shows `_filteredUsers`; only the error branch
contains the retry `ds-button`. -/
def render (s : CState) : View :=
  if s.status = .idle then .idleMsg
  else if s.status = .loading then .loadingMsg
  else if s.status = .error then
    .errorView ("Error loading users: " ++ errStr s.error)
  else .listView (filteredUsers s.users s.filter s.limit)

/-- Whether the rendered template offers the manual retry action: true
exactly when `render` produced the error branch. -/
def retryAvailable (s : CState) : Bool :=
  match render s with
  | .errorView _ => true
  | _ => false

/-- The synchronous head of `_loadUsers`: set `_status = "loading"` and
issue the GET (counted in `fetches`); the rest of `_loadUsers` runs when
the promise settles. -/
def startLoad (s : CState) : CState :=
  { s with status := .loading, fetches := s.fetches + 1 }

/-- Events the component reacts to: `firstUpdated` (mount), settlement
of the in-flight fetch promise (resolve with the user array, or reject
with the thrown error message), a click on the retry button, and the
two configuration writes (`@input` on the filter box, the `limit`
property). -/
inductive Event where
  | mount
  | resolve (us : List User)
  | reject (msg : String)
  | retryClick
  | setFilter (f : String)
  | setLimit (n : Int)

/-- One event step of `ds-user-list`:
mount runs `firstUpdated`, i.e. calls `_loadUsers`; a resolving fetch
runs the `try` tail of `_loadUsers` (`_users = users; _status =
"success"`); a rejecting fetch runs the `catch` block (`_error =
error.message; _status = "error"`); a retry click reaches `_loadUsers`
only when the retry button is rendered, i.e. in the error branch;
filter and limit writes assign the one field. -/
def step (s : CState) : Event → CState
  | .mount => startLoad s
  | .resolve us => { s with users := us, status := .success }
  | .reject msg => { s with error := some msg, status := .error }
  | .retryClick => if retryAvailable s then startLoad s else s
  | .setFilter f => { s with filter := f }
  | .setLimit n => { s with limit := n }

/-- The whole of `_loadUsers` for a fetch that settles with outcome `o`:
the `try` block awaits `getUsers` and on success stores the dataset and
enters `success`; the `catch` block stores `error.message` and enters
`error`. -/
def loadUsers (s : CState) (o : FetchOutcome) : CState :=
  let s1 := startLoad s
  match getUsers o with
  | .ok us => step s1 (.resolve us)
  | .error msg => step s1 (.reject msg)

/-! ### The pub/sub store (`store.js`)

```js
let _state = { selectedUser: null };
const _listeners = new Set();
export function getState() { return _state; }
export function setState(newState) {
  _state = { ..._state, ...newState };
  _listeners.forEach((fn) => fn(_state));
}
export function subscribe(fn) {
  _listeners.add(fn);
  return () => _listeners.delete(fn);
}
```
A JavaScript object is modelled as a partial map from property names to
values (`setState` accepts any shape: no validation).  Callback
functions are identified by reference; the model names them with `Nat`
identifiers.  A `Set` holds each element at most once in insertion
order: the listener set is a duplicate-free `List Nat`, `add` appends
only when absent, `delete` removes the occurrence.  The synchronous
notifications of one `setState` call are returned as the list of
`(callback, argument)` invocations, in iteration order. -/

/-- A JavaScript runtime value as far as the store's state is
concerned (`selectedUser` holds `null` or a user; the shape of the
partial is not validated, so other values may appear). -/
inductive JsVal where
  | null
  | user (u : User)
  | num (n : Int)
  | str (s : String)
deriving DecidableEq, Repr

/-- A JavaScript object: property name to value, absent keys `none`. -/
def JsObj : Type := String → Option JsVal

/-- The spread merge of the two objects in
`{ ..._state, ...newState }`: every property of `newState` wins, every
property only in `_state` is kept. -/
def spreadMerge (base upd : JsObj) : JsObj :=
  fun k => match upd k with
    | some v => some v
    | none => base k

/-- The pub/sub store: the module-level `_state` and `_listeners`. -/
structure Store where
  state : JsObj
  listeners : List Nat

/-- The module's initial state: `{ selectedUser: null }`, no listeners. -/
def initialStore : Store :=
  { state := fun k => if k = "selectedUser" then some .null else none,
    listeners := [] }

/-- `getState()`: returns the current state object. -/
def getState (st : Store) : JsObj := st.state

/-- `setState(newState)`: replaces the state with the spread merge and
synchronously calls each registered listener with the new full state.
The second component lists the invocations `(fn, argument)` made. -/
def setState (st : Store) (newState : JsObj) :
    Store × List (Nat × JsObj) :=
  let merged := spreadMerge st.state newState
  ({ st with state := merged },
   st.listeners.map fun fn => (fn, merged))

/-- `subscribe(fn)`'s registration: `_listeners.add(fn)` (a `Set` add is
a no-op when `fn` is already present, otherwise appends). -/
def subscribe (st : Store) (fn : Nat) : Store :=
  if fn ∈ st.listeners then st
  else { st with listeners := st.listeners ++ [fn] }

/-- The zero-argument closure returned by `subscribe(fn)`:
`() => _listeners.delete(fn)`. -/
def unsubscribe (st : Store) (fn : Nat) : Store :=
  { st with listeners := st.listeners.filter fun j => j != fn }

/-! ### `ds-button` (`ds-button.js`)

```js
_handleClick() {
  if (this.disabled) return;
  this.dispatchEvent(new CustomEvent("ds-click", { bubbles: true, composed: true }));
}
```
-/

/-- The reactive properties of a `ds-button`. -/
structure BtnState where
  variant : String
  disabled : Bool
deriving DecidableEq, Repr

/-- `_handleClick` of `ds-button.js`: returns the (unchanged) component
state and the list of event names dispatched by this invocation. -/
def handleClick (b : BtnState) : BtnState × List String :=
  if b.disabled then (b, [])
  else (b, ["ds-click"])

/-! ## Helper lemmas -/

/-- Every element of a JavaScript slice is an element of the array. -/
theorem mem_jsSliceTo {xs : List α} {e : Int} {u : α}
    (h : u ∈ jsSliceTo xs e) : u ∈ xs := by
  unfold jsSliceTo at h
  split at h <;> exact List.mem_of_mem_take h

/-- Taking `min n (length xs)` elements is taking `n` elements. -/
theorem take_min_length (xs : List α) (n : Nat) :
    xs.take (min n xs.length) = xs.take n := by
  rcases Nat.le_total n xs.length with h | h
  · rw [Nat.min_eq_left h]
  · rw [Nat.min_eq_right h, List.take_length, List.take_of_length_le h]

/-- On a natural end index, the JavaScript slice is `List.take`. -/
theorem jsSliceTo_coe (xs : List α) (L : Nat) :
    jsSliceTo xs (L : Int) = xs.take L := by
  unfold jsSliceTo
  rw [if_neg (by omega)]
  have h1 : (min (L : Int) (xs.length : Int)).toNat = min L xs.length := by
    omega
  rw [h1, take_min_length]

/-- With a non-negative end index, a JavaScript slice has at most that
many elements. -/
theorem length_jsSliceTo_le (xs : List α) {e : Int} (he : 0 ≤ e) :
    ((jsSliceTo xs e).length : Int) ≤ e := by
  unfold jsSliceTo
  rw [if_neg (by omega)]
  simp only [List.length_take]
  omega

/-! ## Claims -/

/-- Claim C1: the derived view of the list component is exactly the
stored dataset filtered (when the filter string is non-empty) by
case-insensitive substring match of the filter against each name, then
truncated to the first `limit` entries in original order; in
particular, for every non-empty filter, every item in the view has a
name containing the filter case-insensitively. -/
theorem C1_derived_view :
    (∀ (users : List User) (f : String) (L : Nat),
        filteredUsers users f (L : Int) = specDerivedView users f L)
    ∧
    (∀ (users : List User) (f : String) (lim : Int) (u : User),
        f ≠ "" → u ∈ filteredUsers users f lim →
        jsIncludes (jsToLower u.name) (jsToLower f) = true) := by
  constructor
  · intro users f L
    by_cases hf : f = "" <;>
      simp [filteredUsers, specDerivedView, hf, jsSliceTo_coe]
  · intro users f lim u hf hm
    unfold filteredUsers at hm
    rw [if_neg hf] at hm
    exact (List.mem_filter.mp (mem_jsSliceTo hm)).2

/-- Witness for C1 at the spec's scenario: filter `"ali"` on
`[alice, bob]` keeps `alice`, whose name matches case-insensitively. -/
theorem C1_derived_view_witness :
    ("ali" ≠ "" ∧ alice ∈ filteredUsers [alice, bob] "ali" 10)
    ∧ jsIncludes (jsToLower alice.name) (jsToLower "ali") = true :=
  ⟨⟨by decide, by decide⟩,
   C1_derived_view.2 [alice, bob] "ali" 10 alice (by decide) (by decide)⟩

/-- Claim C4 as stated is false: with a negative limit, JavaScript's
`slice(0, limit)` counts from the end of the array, so the view of a
two-user dataset with `limit = -1` has one entry, and `1 ≤ -1` fails. -/
theorem C4_counterexample :
    ¬ (∀ (users : List User) (f : String) (L : Int),
          ((filteredUsers users f L).length : Int) ≤ L) := by
  intro h
  have h2 := h [alice, bob] "" (-1)
  revert h2
  decide

/-- Claim C4, amended: for every dataset, every filter string and every
non-negative limit `L`, the derived view has at most `L` entries. -/
theorem C4_view_length_le_limit :
    ∀ (users : List User) (f : String) (L : Int), 0 ≤ L →
      ((filteredUsers users f L).length : Int) ≤ L := by
  intro users f L hL
  unfold filteredUsers
  split <;> exact length_jsSliceTo_le _ hL

/-- Witness for the amended C4 at `limit = 10` on a two-user dataset. -/
theorem C4_view_length_le_limit_witness :
    (0 : Int) ≤ 10
    ∧ ((filteredUsers [alice, bob] "" 10).length : Int) ≤ 10 :=
  ⟨by decide, C4_view_length_le_limit [alice, bob] "" 10 (by decide)⟩

/-- Claim C2: a non-ok HTTP response makes `getUsers` fail with the
server's status text; a network-level failure propagates its message
unchanged; and whenever the load fails, `_loadUsers` enters the `error`
status carrying exactly that message and leaves the stored dataset
untouched. -/
theorem C2_error_handling :
    (∀ r : HttpResponse, r.ok = false →
        getUsers (.response r) = .error r.statusText)
    ∧ (∀ m : String, getUsers (.networkError m) = .error m)
    ∧ (∀ (s : CState) (o : FetchOutcome) (m : String),
          getUsers o = .error m →
          (loadUsers s o).status = .error
          ∧ (loadUsers s o).error = some m
          ∧ (loadUsers s o).users = s.users) := by
  refine ⟨?_, ?_, ?_⟩
  · intro r h
    simp [getUsers, h]
  · intro m
    rfl
  · intro s o m h
    simp [loadUsers, h, step, startLoad]

/-- Witness for C2 at the spec's scenario: an HTTP 500 response whose
status text is "Internal Server Error". -/
theorem C2_error_handling_witness :
    ({ ok := false, statusText := "Internal Server Error", body := [] }
       : HttpResponse).ok = false
    ∧ getUsers (.response
        { ok := false, statusText := "Internal Server Error", body := [] })
      = .error "Internal Server Error" :=
  ⟨rfl, C2_error_handling.1 _ rfl⟩

/-- Claim C3: the list component follows the 4-state machine: the
constructor state is `idle` with no fetch issued; mounting triggers
exactly one load and enters `loading`; a resolving load moves `loading`
to `success` and replaces the dataset; a rejecting load moves `loading`
to `error` and records the message; the manual retry action is rendered
exactly in the `error` state and re-enters `loading`; and a completing
load never issues a fetch by itself (no automatic retry). -/
theorem C3_state_machine :
    initUserList.status = .idle ∧ initUserList.fetches = 0
    ∧ (step initUserList .mount).status = .loading
    ∧ (step initUserList .mount).fetches = 1
    ∧ (∀ (s : CState) (us : List User), s.status = .loading →
          (step s (.resolve us)).status = .success
          ∧ (step s (.resolve us)).users = us)
    ∧ (∀ (s : CState) (m : String), s.status = .loading →
          (step s (.reject m)).status = .error
          ∧ (step s (.reject m)).error = some m)
    ∧ (∀ s : CState, retryAvailable s = true ↔ s.status = .error)
    ∧ (∀ s : CState, s.status = .error →
          (step s .retryClick).status = .loading
          ∧ (step s .retryClick).fetches = s.fetches + 1)
    ∧ (∀ (s : CState) (us : List User) (m : String),
          (step s (.resolve us)).fetches = s.fetches
          ∧ (step s (.reject m)).fetches = s.fetches) := by
  refine ⟨rfl, rfl, rfl, rfl, ?_, ?_, ?_, ?_, ?_⟩
  · intro s us _
    exact ⟨rfl, rfl⟩
  · intro s m _
    exact ⟨rfl, rfl⟩
  · intro s
    cases hs : s.status <;> simp [retryAvailable, render, hs]
  · intro s hs
    have hra : retryAvailable s = true := by
      simp [retryAvailable, render, hs]
    constructor <;> simp [step, hra, startLoad]
  · intro s us m
    exact ⟨rfl, rfl⟩

/-- Witness for C3 at a concrete error state: retry re-enters loading
and issues one more fetch. -/
theorem C3_state_machine_witness :
    ({ initUserList with status := .error } : CState).status = .error
    ∧ (step { initUserList with status := .error } .retryClick).status
        = .loading
    ∧ (step { initUserList with status := .error } .retryClick).fetches
        = ({ initUserList with status := .error } : CState).fetches + 1 := by
  obtain ⟨-, -, -, -, -, -, -, h8, -⟩ := C3_state_machine
  exact ⟨rfl, h8 { initUserList with status := .error } rfl⟩

/-- Claim C5: writing `filter` or `limit` never mutates the stored
dataset and never issues a fetch; the derived view after such a write
is recomputed purely from the unchanged dataset; only mount and retry
contact the data source; and only a resolving load replaces the
dataset. -/
theorem C5_projection_frame :
    (∀ (s : CState) (f : String),
        (step s (.setFilter f)).users = s.users
        ∧ (step s (.setFilter f)).fetches = s.fetches
        ∧ filteredUsers (step s (.setFilter f)).users
            (step s (.setFilter f)).filter (step s (.setFilter f)).limit
          = filteredUsers s.users f s.limit)
    ∧ (∀ (s : CState) (n : Int),
        (step s (.setLimit n)).users = s.users
        ∧ (step s (.setLimit n)).fetches = s.fetches
        ∧ filteredUsers (step s (.setLimit n)).users
            (step s (.setLimit n)).filter (step s (.setLimit n)).limit
          = filteredUsers s.users s.filter n)
    ∧ (∀ (s : CState) (e : Event), s.fetches < (step s e).fetches →
          e = .mount ∨ e = .retryClick)
    ∧ (∀ (s : CState) (e : Event), (step s e).users ≠ s.users →
          ∃ us, e = .resolve us) := by
  refine ⟨?_, ?_, ?_, ?_⟩
  · intro s f
    exact ⟨rfl, rfl, rfl⟩
  · intro s n
    exact ⟨rfl, rfl, rfl⟩
  · intro s e h
    cases e <;> simp_all [step, startLoad]
  · intro s e h
    cases e with
    | mount => exact absurd rfl h
    | resolve us => exact ⟨us, rfl⟩
    | reject m => exact absurd rfl h
    | retryClick =>
        refine absurd ?_ h
        show (if retryAvailable s then startLoad s else s).users = s.users
        split <;> rfl
    | setFilter f => exact absurd rfl h
    | setLimit n => exact absurd rfl h

/-- Witness for C5: mounting from the constructor state increases the
fetch count, and mount is indeed a load-triggering event. -/
theorem C5_projection_frame_witness :
    initUserList.fetches < (step initUserList .mount).fetches
    ∧ (Event.mount = .mount ∨ Event.mount = .retryClick) :=
  ⟨by decide, C5_projection_frame.2.2.1 initUserList .mount (by decide)⟩

/-- A sample `setState` partial, assigning `selectedUser`. -/
def updObj : JsObj :=
  fun k => if k = "selectedUser" then some (.user alice) else none

/-- Subscribing an already-registered callback is a no-op (`Set.add`). -/
theorem subscribe_of_mem {st : Store} {fn : Nat}
    (h : fn ∈ st.listeners) : subscribe st fn = st := by
  simp [subscribe, h]

/-- A callback is registered after subscribing it. -/
theorem mem_subscribe (st : Store) (fn : Nat) :
    fn ∈ (subscribe st fn).listeners := by
  by_cases h : fn ∈ st.listeners <;> simp [subscribe, h]

/-- Subscribing preserves duplicate-freeness of the listener set. -/
theorem subscribe_nodup {st : Store} (fn : Nat)
    (h : st.listeners.Nodup) : (subscribe st fn).listeners.Nodup := by
  by_cases hm : fn ∈ st.listeners <;>
    simp [subscribe, hm, h, List.nodup_append, List.disjoint_singleton]

/-- The callbacks invoked by one `setState` are the registered ones. -/
theorem setState_calls_fst (st : Store) (p : JsObj) :
    (setState st p).2.map Prod.fst = st.listeners := by
  simp only [setState, List.map_map]
  exact List.map_id st.listeners

/-- Claim C6: `setState(partial)` shallow-merges: every property named
in the partial takes the partial's value, every other property of the
current state is preserved, and `getState()` then returns the merged
state. -/
theorem C6_setState_shallow_merge :
    ∀ (st : Store) (p : JsObj) (k : String),
      (∀ v, p k = some v → getState (setState st p).1 k = some v)
      ∧ (p k = none → getState (setState st p).1 k = st.state k) := by
  intro st p k
  constructor
  · intro v hv
    simp [getState, setState, spreadMerge, hv]
  · intro hv
    simp [getState, setState, spreadMerge, hv]

/-- Witness for C6: merging `updObj` into the initial store updates
`selectedUser` and the hypothesis `updObj "selectedUser" = some _`
holds by evaluation. -/
theorem C6_setState_shallow_merge_witness :
    updObj "selectedUser" = some (.user alice)
    ∧ getState (setState initialStore updObj).1 "selectedUser"
        = some (.user alice) :=
  ⟨rfl, (C6_setState_shallow_merge initialStore updObj "selectedUser").1
          (.user alice) rfl⟩

/-- Claim C7: every `setState` call synchronously invokes exactly the
currently registered callbacks, each with the new full merged state
(which is the state after the update, not the partial); callbacks not
registered (for instance, already unsubscribed) are not invoked. -/
theorem C7_setState_notifications :
    ∀ (st : Store) (p : JsObj),
      (∀ fn, fn ∈ st.listeners →
          (fn, spreadMerge st.state p) ∈ (setState st p).2)
      ∧ (∀ fn arg, (fn, arg) ∈ (setState st p).2 →
            fn ∈ st.listeners ∧ arg = spreadMerge st.state p
            ∧ arg = (setState st p).1.state)
      ∧ (∀ fn, fn ∉ st.listeners →
            ∀ arg, (fn, arg) ∉ (setState st p).2) := by
  intro st p
  refine ⟨?_, ?_, ?_⟩
  · intro fn h
    exact List.mem_map.mpr ⟨fn, h, rfl⟩
  · intro fn arg h
    simp only [setState] at h
    obtain ⟨x, hx, hfx⟩ := List.mem_map.mp h
    injection hfx with h1 h2
    subst h1
    subst h2
    exact ⟨hx, rfl, rfl⟩
  · intro fn h arg hmem
    simp only [setState] at hmem
    obtain ⟨x, hx, hfx⟩ := List.mem_map.mp hmem
    injection hfx with h1 h2
    subst h1
    exact h hx

/-- Witness for C7: with callback 7 subscribed to the initial store, a
`setState updObj` call invokes callback 7 with the merged state. -/
theorem C7_setState_notifications_witness :
    7 ∈ (subscribe initialStore 7).listeners
    ∧ (7, spreadMerge (subscribe initialStore 7).state updObj)
        ∈ (setState (subscribe initialStore 7) updObj).2 :=
  ⟨by decide,
   (C7_setState_notifications (subscribe initialStore 7) updObj).1 7
     (by decide)⟩

/-- Claim C8: the unsubscribe closure removes exactly its own callback
(every other callback's registration is untouched), and it is
idempotent: running it twice equals running it once. -/
theorem C8_unsubscribe_exact :
    ∀ (st : Store) (fn : Nat),
      (∀ j, j ∈ (unsubscribe st fn).listeners
              ↔ (j ∈ st.listeners ∧ j ≠ fn))
      ∧ unsubscribe (unsubscribe st fn) fn = unsubscribe st fn := by
  intro st fn
  constructor
  · intro j
    simp [unsubscribe, List.mem_filter]
  · simp [unsubscribe, List.filter_filter]

/-- Claim C9: while `disabled` is true, `_handleClick` dispatches no
event and leaves the button state unchanged, even when invoked
programmatically. -/
theorem C9_disabled_blocks_click :
    ∀ b : BtnState, b.disabled = true → handleClick b = (b, []) := by
  intro b h
  simp [handleClick, h]

/-- Witness for C9 at a concrete disabled button. -/
theorem C9_disabled_blocks_click_witness :
    ({ variant := "primary", disabled := true } : BtnState).disabled = true
    ∧ handleClick { variant := "primary", disabled := true }
        = ({ variant := "primary", disabled := true }, []) :=
  ⟨rfl, C9_disabled_blocks_click { variant := "primary", disabled := true }
          rfl⟩

/-- Claim C10: the `Set`-backed listener registry makes a second
`subscribe` of an already-registered callback a no-op, the callback is
invoked once per `setState`, and a single unsubscribe removes it
entirely. -/
theorem C10_subscribe_dedup :
    ∀ (st : Store) (fn : Nat) (p : JsObj), st.listeners.Nodup →
      subscribe (subscribe st fn) fn = subscribe st fn
      ∧ ((setState (subscribe (subscribe st fn) fn) p).2.map
           Prod.fst).count fn = 1
      ∧ fn ∉ (unsubscribe (subscribe (subscribe st fn) fn) fn).listeners := by
  intro st fn p hnd
  have hdbl : subscribe (subscribe st fn) fn = subscribe st fn :=
    subscribe_of_mem (mem_subscribe st fn)
  refine ⟨hdbl, ?_, ?_⟩
  · rw [hdbl, setState_calls_fst]
    exact List.count_eq_one_of_mem (subscribe_nodup fn hnd)
      (mem_subscribe st fn)
  · rw [hdbl]
    simp [unsubscribe, List.mem_filter]

/-- Witness for C10: subscribing callback 3 twice to the (duplicate-free)
initial store equals subscribing it once. -/
theorem C10_subscribe_dedup_witness :
    initialStore.listeners.Nodup
    ∧ subscribe (subscribe initialStore 3) 3 = subscribe initialStore 3 :=
  ⟨by decide, (C10_subscribe_dedup initialStore 3 updObj (by decide)).1⟩

end DsLab
